import Mathlib

/-!
Verification of the senseinfo frontend authentication core.

This file gives a shallow embedding of the authentication handshake code of
the repository (the Setup page handlers, the axios response interceptor, the
AuthService session helpers and the pure validators) and proves or refutes
the specification claims about them.

Source files embedded:
- frontend/src/utils/validators.ts      (validatePhoneNumber, validateApiCredentials)
- frontend/src/services/api.ts          (response interceptor error handler)
- frontend/src/services/authService.ts  (verifyCode, logout, clearAuthData)
- frontend/src/pages/Setup.tsx          (handleApiSubmit, handlePhoneSubmit,
                                         handleCodeSubmit, handlePasswordSubmit)
-/

namespace SenseInfo

/-! ## Character classes used by the regular expressions in validators.ts -/

/-- Character class of the regex token backslash-d, that is [0-9]. -/
def isDigitChar (c : Char) : Bool := 48 ≤ c.toNat && c.toNat ≤ 57

/-- Character class [1-9]. -/
def isNonZeroDigit (c : Char) : Bool := 49 ≤ c.toNat && c.toNat ≤ 57

/-- Character class [a-f0-9]: one lowercase hexadecimal digit. -/
def isLowerHexChar (c : Char) : Bool :=
  (97 ≤ c.toNat && c.toNat ≤ 102) || isDigitChar c

/-! ## validators.ts -/

/-- Anchored match of the pattern from validatePhoneNumber, over a char list:
a leading plus sign, one digit 1-9, then 10 to 14 further digits. -/
def phoneChars : List Char → Bool
  | a :: c :: rest =>
      decide (a = '+') && isNonZeroDigit c && rest.all isDigitChar &&
      decide (10 ≤ rest.length) && decide (rest.length ≤ 14)
  | _ => false

/-- validators.ts, validatePhoneNumber: tests the whole string against
the anchored regex of a plus sign, a digit 1-9 and 10 to 14 digits. -/
def validatePhoneNumber (s : String) : Bool := phoneChars s.data

/-- validators.ts, validateApiCredentials: the api id must match an anchored
one-or-more-digits pattern and the api hash must match exactly 32 characters
drawn from [a-f0-9]. -/
def validateApiCredentials (apiId apiHash : String) : Bool :=
  (decide (apiId.data ≠ []) && apiId.data.all isDigitChar) &&
  (decide (apiHash.data.length = 32) && apiHash.data.all isLowerHexChar)

/-! ## Spec-side restatements of the validator claims -/

/-- The phone-validator property exactly as the specification words it:
a leading plus sign, a first digit 1-9, and 11 to 15 digits in total. -/
def phoneClaimSpec (s : String) : Prop :=
  ∃ ds : List Char,
    s.data = '+' :: ds ∧
    11 ≤ ds.length ∧ ds.length ≤ 15 ∧
    (∀ c ∈ ds, isDigitChar c = true) ∧
    (∀ c, ds.head? = some c → isNonZeroDigit c = true)

/-- The credential-validator property exactly as the specification words it:
the api id is a non-empty all-digit string, and the api hash is exactly 32
lowercase hexadecimal characters. -/
def apiCredClaimSpec (apiId apiHash : String) : Prop :=
  (apiId ≠ "" ∧ ∀ c ∈ apiId.data, isDigitChar c = true) ∧
  (apiHash.data.length = 32 ∧ ∀ c ∈ apiHash.data, isLowerHexChar c = true)

lemma nonZero_isDigit {c : Char} (h : isNonZeroDigit c = true) :
    isDigitChar c = true := by
  unfold isNonZeroDigit at h
  unfold isDigitChar
  simp only [Bool.and_eq_true, decide_eq_true_eq] at h ⊢
  omega

lemma string_eq_empty_iff (s : String) : s = "" ↔ s.data = [] := by
  constructor
  · intro h
    subst h
    rfl
  · intro h
    exact String.ext h

lemma phoneChars_iff (l : List Char) :
    phoneChars l = true ↔
      ∃ ds : List Char,
        l = '+' :: ds ∧
        11 ≤ ds.length ∧ ds.length ≤ 15 ∧
        (∀ c ∈ ds, isDigitChar c = true) ∧
        (∀ c, ds.head? = some c → isNonZeroDigit c = true) := by
  match l with
  | [] =>
      simp [phoneChars]
  | [a] =>
      constructor
      · intro h
        simp [phoneChars] at h
      · rintro ⟨ds, hds, h11, -, -, -⟩
        cases hds
        simp at h11
  | a :: c :: rest =>
      constructor
      · intro h
        simp only [phoneChars, Bool.and_eq_true, decide_eq_true_eq,
          List.all_eq_true] at h
        obtain ⟨⟨⟨⟨ha, hc⟩, hall⟩, hlo⟩, hhi⟩ := h
        subst ha
        refine ⟨c :: rest, rfl, ?_, ?_, ?_, ?_⟩
        · simp
          omega
        · simp
          omega
        · intro d hd
          rcases List.mem_cons.mp hd with h1 | h2
          · subst h1
            exact nonZero_isDigit hc
          · exact hall d h2
        · intro d hd
          simp only [List.head?_cons, Option.some.injEq] at hd
          subst hd
          exact hc
      · rintro ⟨ds, hds, h11, h15, hall, hhead⟩
        obtain ⟨ha, hrest⟩ := List.cons.inj hds
        subst ha
        subst hrest
        simp only [phoneChars, Bool.and_eq_true, decide_eq_true_eq,
          List.all_eq_true]
        refine ⟨⟨⟨⟨?_, ?_⟩, ?_⟩, ?_⟩, ?_⟩
        · trivial
        · exact hhead c rfl
        · intro d hd
          exact hall d (List.mem_cons_of_mem c hd)
        · simp at h11
          omega
        · simp at h15
          omega

/-- C5: validatePhoneNumber accepts exactly the strings matching the anchored
regex of a plus sign, a first digit 1-9 and 11 to 15 digits in total. -/
theorem validatePhoneNumber_iff_spec (s : String) :
    validatePhoneNumber s = true ↔ phoneClaimSpec s := by
  unfold validatePhoneNumber phoneClaimSpec
  exact phoneChars_iff s.data

/-- C5 witness: the theorem evaluated at a concrete accepted number. -/
theorem validatePhoneNumber_iff_spec_witness :
    phoneClaimSpec "+821012345678" :=
  (validatePhoneNumber_iff_spec "+821012345678").mp (by decide)

/-- C6: validateApiCredentials accepts exactly the pairs where the api id is
a non-empty all-digit string and the api hash is exactly 32 lowercase
hexadecimal characters. -/
theorem validateApiCredentials_iff_spec (apiId apiHash : String) :
    validateApiCredentials apiId apiHash = true ↔ apiCredClaimSpec apiId apiHash := by
  unfold validateApiCredentials apiCredClaimSpec
  simp only [Bool.and_eq_true, decide_eq_true_eq, List.all_eq_true, ne_eq,
    ← string_eq_empty_iff]

/-- C6 witness: the theorem evaluated at a concrete accepted pair. -/
theorem validateApiCredentials_iff_spec_witness :
    apiCredClaimSpec "12345678" "aaaaaaaaaaaaaaaaaaaaaaaaaaaaaaaa" :=
  (validateApiCredentials_iff_spec "12345678"
    "aaaaaaaaaaaaaaaaaaaaaaaaaaaaaaaa").mp (by decide)

/-! ## localStorage model

The client keeps exactly four persistent keys: auth_token, telegram_api_id,
telegram_api_hash and user_data.  Each field is none when the key is absent. -/

structure LocalStorage where
  auth_token : Option String
  telegram_api_id : Option String
  telegram_api_hash : Option String
  user_data : Option String
deriving Repr, DecidableEq

/-- localStorage.removeItem applied to the auth_token key. -/
def removeAuthToken (s : LocalStorage) : LocalStorage := { s with auth_token := none }

/-- localStorage.removeItem applied to the telegram_api_id key. -/
def removeTelegramApiId (s : LocalStorage) : LocalStorage :=
  { s with telegram_api_id := none }

/-- localStorage.removeItem applied to the telegram_api_hash key. -/
def removeTelegramApiHash (s : LocalStorage) : LocalStorage :=
  { s with telegram_api_hash := none }

/-- localStorage.removeItem applied to the user_data key. -/
def removeUserData (s : LocalStorage) : LocalStorage := { s with user_data := none }

/-- localStorage.setItem applied to the auth_token key. -/
def setAuthToken (s : LocalStorage) (v : String) : LocalStorage :=
  { s with auth_token := some v }

/-- localStorage.setItem applied to the telegram_api_id key. -/
def setTelegramApiId (s : LocalStorage) (v : String) : LocalStorage :=
  { s with telegram_api_id := some v }

/-- localStorage.setItem applied to the telegram_api_hash key. -/
def setTelegramApiHash (s : LocalStorage) (v : String) : LocalStorage :=
  { s with telegram_api_hash := some v }

/-- authService.ts clearAuthData: removes auth_token, telegram_api_id,
telegram_api_hash and user_data, in that order. -/
def clearAuthData (s : LocalStorage) : LocalStorage :=
  removeUserData (removeTelegramApiHash (removeTelegramApiId (removeAuthToken s)))

/-- The store with no key set. -/
def emptyStore : LocalStorage := ⟨none, none, none, none⟩

/-- C7: after clearAuthData, none of the session token, the stored api id and
the stored api hash is observable in the store, for every starting store. -/
theorem clearAuthData_clears_all (s : LocalStorage) :
    (clearAuthData s).auth_token = none ∧
    (clearAuthData s).telegram_api_id = none ∧
    (clearAuthData s).telegram_api_hash = none :=
  ⟨rfl, rfl, rfl⟩

/-- C9: clearAuthData is idempotent; a second clear leaves the same empty
state as the first. -/
theorem clearAuthData_idempotent (s : LocalStorage) :
    clearAuthData (clearAuthData s) = clearAuthData s :=
  rfl

/-! ## Transport outcomes and the axios response interceptor (api.ts)

axios resolves a request promise exactly when an HTTP response with a 2xx
status arrives; any non-2xx response, and the no-response case, go through
the error handler of the response interceptor and are then re-thrown to the
calling code.  The error handler's only store and navigation effects are in
its 401 case; every other case only emits toast messages. -/

/-- One field entry of a 422 validation-error payload. -/
structure FieldError where
  field : String
  message : String
deriving Repr, DecidableEq

/-- JSON body of an auth endpoint response, as read by the handlers. -/
structure AuthResponseData where
  status : String
  message : String
  phone_code_hash : String
  requires_2fa : Bool
  user_id : Option Int
deriving Repr, DecidableEq

/-- A failed request: either no response at all, or a non-2xx response
carrying a status code, an optional detail string and optional field
errors. -/
inductive HttpFailure where
  | noResponse : HttpFailure
  | withResponse (status : Nat) (detail : Option String)
      (errors : Option (List FieldError)) : HttpFailure
deriving Repr, DecidableEq

/-- Transport outcome of one request: a resolved 2xx response with its JSON
body, or a classified failure. -/
inductive HttpOutcome where
  | success (data : AuthResponseData) : HttpOutcome
  | failure (f : HttpFailure) : HttpOutcome
deriving Repr, DecidableEq

/-- Toast severity used by the handlers. -/
inductive ToastKind where
  | success : ToastKind
  | error : ToastKind
  | info : ToastKind
deriving Repr, DecidableEq

/-- One toast notification. -/
structure Toast where
  kind : ToastKind
  msg : String
deriving Repr, DecidableEq

/-- Observable result of the response interceptor error handler: the store
after its side effects, the page navigation it performed (window.location),
and the toasts it emitted. -/
structure InterceptResult where
  store : LocalStorage
  redirect : Option String
  toasts : List Toast
deriving Repr, DecidableEq

/-- Toasts of the interceptor's 422 case: one per field error, or the detail
fallback. -/
def validationToasts (detail : Option String) (errors : Option (List FieldError)) :
    List Toast :=
  match errors with
  | some errs => errs.map (fun e => ⟨ToastKind.error, e.field ++ ": " ++ e.message⟩)
  | none => [⟨ToastKind.error, detail.getD "Validation error"⟩]

/-- api.ts response interceptor, error branch.  The endpoint argument is
taken because every request goes through the same interceptor, and is only
used for logging in the source, so the behaviour is endpoint-independent.
On 401 it removes auth_token, telegram_api_id and telegram_api_hash and
navigates to the setup page; every other case leaves the store alone and
only emits a toast. -/
def responseErrorInterceptor (endpoint : String) (f : HttpFailure)
    (store : LocalStorage) : InterceptResult :=
  match f with
  | HttpFailure.noResponse =>
      ⟨store, none, [⟨ToastKind.error, "Network error. Please check your connection."⟩]⟩
  | HttpFailure.withResponse status detail errors =>
      if status = 401 then
        ⟨removeTelegramApiHash (removeTelegramApiId (removeAuthToken store)),
          some "/setup", []⟩
      else if status = 403 then
        ⟨store, none, [⟨ToastKind.error, "Access forbidden"⟩]⟩
      else if status = 404 then
        ⟨store, none, [⟨ToastKind.error, "Resource not found"⟩]⟩
      else if status = 422 then
        ⟨store, none, validationToasts detail errors⟩
      else if status = 429 then
        ⟨store, none, [⟨ToastKind.error, "Too many requests. Please wait."⟩]⟩
      else if status = 500 then
        ⟨store, none, [⟨ToastKind.error, "Server error. Please try again later."⟩]⟩
      else
        ⟨store, none, [⟨ToastKind.error, detail.getD "An unexpected error occurred"⟩]⟩

lemma interceptor_non401 (endpoint : String) (status : Nat)
    (detail : Option String) (errors : Option (List FieldError))
    (store : LocalStorage) (h : status ≠ 401) :
    (responseErrorInterceptor endpoint
        (HttpFailure.withResponse status detail errors) store).store = store ∧
    (responseErrorInterceptor endpoint
        (HttpFailure.withResponse status detail errors) store).redirect = none := by
  simp only [responseErrorInterceptor]
  split_ifs <;> simp_all

/-! ## Setup.tsx: the handshake state machine -/

/-- The step discriminant of the Setup page; api is the credentials step
(CredentialsPending), phone is PhonePending, code is CodePending, password
is PasswordPending and complete is the Authenticated terminal screen. -/
inductive SetupStep where
  | api : SetupStep
  | phone : SetupStep
  | code : SetupStep
  | password : SetupStep
  | complete : SetupStep
deriving Repr, DecidableEq

/-- The form fields of the Setup page. -/
structure SetupFormData where
  apiId : String
  apiHash : String
  phoneNumber : String
  code : String
  password : String
deriving Repr, DecidableEq

/-- Component state of the Setup page: the current step, the form data and
the stored handshake identifier.  The transient loading flag is omitted
since it is reset in every handler's finally block. -/
structure SetupState where
  step : SetupStep
  formData : SetupFormData
  phoneCodeHash : String
deriving Repr, DecidableEq

/-- The initial component state: useState gives step api, empty form fields
and an empty phoneCodeHash. -/
def setupInitialState : SetupState :=
  ⟨SetupStep.api, ⟨"", "", "", "", ""⟩, ""⟩

/-- Observable result of running one submit handler to completion: component
state, store, navigation and toasts. -/
structure SubmitResult where
  state : SetupState
  store : LocalStorage
  redirect : Option String
  toasts : List Toast
deriving Repr, DecidableEq

/-- Setup.tsx handleApiSubmit: stores both credential fields and advances to
the phone step.  No validator is consulted anywhere in the handler. -/
def handleApiSubmit (st : SetupState) (store : LocalStorage) : SubmitResult :=
  { state := { st with step := SetupStep.phone },
    store := setTelegramApiHash (setTelegramApiId store st.formData.apiId)
      st.formData.apiHash,
    redirect := none,
    toasts := [⟨ToastKind.success, "API credentials saved"⟩] }

/-- Request body of authService AuthStartRequest. -/
structure AuthStartRequest where
  phone_number : String
deriving Repr, DecidableEq

/-- Request body of authService AuthVerifyRequest. -/
structure AuthVerifyRequest where
  phone_number : String
  phone_code_hash : String
  code : String
  api_id : Option String
  api_hash : Option String
deriving Repr, DecidableEq

/-- Request body of authService AuthPasswordRequest. -/
structure AuthPasswordRequest where
  phone_number : String
  password : String
deriving Repr, DecidableEq

/-- The request handlePhoneSubmit posts to the start endpoint; it is built
and sent unconditionally, with a plus sign prepended to the raw field. -/
def phoneSubmitRequest (st : SetupState) : AuthStartRequest :=
  ⟨"+" ++ st.formData.phoneNumber⟩

/-- The request handleCodeSubmit posts to the verify endpoint; the stored
credentials are read back from the store and included. -/
def codeSubmitRequest (st : SetupState) (store : LocalStorage) : AuthVerifyRequest :=
  ⟨"+" ++ st.formData.phoneNumber, st.phoneCodeHash, st.formData.code,
    store.telegram_api_id, store.telegram_api_hash⟩

/-- The request handlePasswordSubmit posts to the 2fa endpoint. -/
def passwordSubmitRequest (st : SetupState) : AuthPasswordRequest :=
  ⟨"+" ++ st.formData.phoneNumber, st.formData.password⟩

/-- The detail string the catch blocks read through
error.response?.data?.detail: absent when no response arrived. -/
def failureDetail : HttpFailure → Option String
  | HttpFailure.noResponse => none
  | HttpFailure.withResponse _ detail _ => detail

/-- Setup.tsx handlePhoneSubmit, response half: on a resolved response it
recognises only the code_sent status and the requires_2fa flag; on a failure
the interceptor runs first and the catch block adds a toast, leaving the
component state unchanged. -/
def handlePhoneSubmit (outcome : HttpOutcome) (st : SetupState)
    (store : LocalStorage) : SubmitResult :=
  match outcome with
  | HttpOutcome.success d =>
      if d.status = "code_sent" then
        { state := { st with phoneCodeHash := d.phone_code_hash, step := SetupStep.code },
          store := store, redirect := none,
          toasts := [⟨ToastKind.success, "Verification code sent"⟩] }
      else if d.requires_2fa then
        { state := { st with step := SetupStep.password },
          store := store, redirect := none,
          toasts := [⟨ToastKind.info, "2FA required"⟩] }
      else
        { state := st, store := store, redirect := none, toasts := [] }
  | HttpOutcome.failure f =>
      let r := responseErrorInterceptor "/auth/telegram/start" f store
      { state := st, store := r.store, redirect := r.redirect,
        toasts := r.toasts ++
          [⟨ToastKind.error, (failureDetail f).getD "Failed to send code"⟩] }

/-- Setup.tsx handleCodeSubmit, response half: the authenticated status
advances to the complete screen and schedules navigation to the dashboard;
the requires_2fa flag advances to the password step; failures leave the
component state unchanged after the interceptor has run. -/
def handleCodeSubmit (outcome : HttpOutcome) (st : SetupState)
    (store : LocalStorage) : SubmitResult :=
  match outcome with
  | HttpOutcome.success d =>
      if d.status = "authenticated" then
        { state := { st with step := SetupStep.complete },
          store := store, redirect := some "/dashboard",
          toasts := [⟨ToastKind.success, "Authentication successful"⟩] }
      else if d.requires_2fa then
        { state := { st with step := SetupStep.password },
          store := store, redirect := none,
          toasts := [⟨ToastKind.info, "2FA password required"⟩] }
      else
        { state := st, store := store, redirect := none, toasts := [] }
  | HttpOutcome.failure f =>
      let r := responseErrorInterceptor "/auth/telegram/verify" f store
      { state := st, store := r.store, redirect := r.redirect,
        toasts := r.toasts ++
          [⟨ToastKind.error, (failureDetail f).getD "Invalid code"⟩] }

/-- Setup.tsx handlePasswordSubmit, response half. -/
def handlePasswordSubmit (outcome : HttpOutcome) (st : SetupState)
    (store : LocalStorage) : SubmitResult :=
  match outcome with
  | HttpOutcome.success d =>
      if d.status = "authenticated" then
        { state := { st with step := SetupStep.complete },
          store := store, redirect := some "/dashboard",
          toasts := [⟨ToastKind.success, "2FA authentication successful"⟩] }
      else
        { state := st, store := store, redirect := none, toasts := [] }
  | HttpOutcome.failure f =>
      let r := responseErrorInterceptor "/auth/telegram/2fa" f store
      { state := st, store := r.store, redirect := r.redirect,
        toasts := r.toasts ++
          [⟨ToastKind.error, (failureDetail f).getD "Invalid password"⟩] }

/-- The step the operator actually sits in once a handler ran: navigating to
the setup page remounts the Setup component in its initial api step, so a
redirect to /setup supersedes the retained component state. -/
def effectiveStep (st : SetupState) (redirect : Option String) : SetupStep :=
  match redirect with
  | some r => if r = "/setup" then SetupStep.api else st.step
  | none => st.step

/-! ## authService.ts: logout and verifyCode -/

/-- authService.ts logout: awaits the logout post and then calls
clearAuthData.  When the post rejects, the await throws and clearAuthData is
never reached; only the interceptor's side effects apply.  The result is
the store after the call together with any navigation performed. -/
def logout (outcome : HttpOutcome) (store : LocalStorage) :
    LocalStorage × Option String :=
  match outcome with
  | HttpOutcome.success _ => (clearAuthData store, none)
  | HttpOutcome.failure f =>
      let r := responseErrorInterceptor "/auth/logout" f store
      (r.store, r.redirect)

/-- JavaScript truthiness of the optional numeric user_id field: undefined
and 0 are falsy. -/
def jsTruthyId : Option Int → Bool
  | none => false
  | some n => decide (n ≠ 0)

/-- A resolved verify response: the JSON payload under data.data and the
authorization response header, absent when the backend did not send one. -/
structure VerifyHttpResponse where
  data : AuthResponseData
  authHeader : Option String
deriving Repr, DecidableEq

/-- Whether the first list starts the second, by direct recursion. -/
def listStartsWith : List Char → List Char → Bool
  | [], _ => true
  | _ :: _, [] => false
  | p :: ps, c :: cs => decide (p = c) && listStartsWith ps cs

/-- Remove the first occurrence of the pattern from the list, if any;
everything else is kept.  This is JavaScript String.replace with a string
pattern and an empty replacement. -/
def replaceFirstAux (pat : List Char) : List Char → List Char
  | [] => []
  | c :: cs =>
      if listStartsWith pat (c :: cs) then (c :: cs).drop pat.length
      else c :: replaceFirstAux pat cs

/-- token.replace of the literal pattern consisting of the word Bearer and a
space, replaced by the empty string. -/
def stripBearer (s : String) : String :=
  String.mk (replaceFirstAux ("Bearer ".data) s.data)

/-- authService.ts verifyCode, store effect of the resolved-response path:
when the payload status is authenticated and user_id is truthy, the
authorization header is read and, when itself truthy, its value minus the
Bearer marker is written to the auth_token key.  The flag records whether
the write happened. -/
def verifyCode (resp : VerifyHttpResponse) (store : LocalStorage) :
    LocalStorage × Bool :=
  if resp.data.status = "authenticated" ∧ jsTruthyId resp.data.user_id = true then
    match resp.authHeader with
    | some token =>
        if token = "" then (store, false)
        else (setAuthToken store (stripBearer token), true)
    | none => (store, false)
  else (store, false)

/-! ## Claim theorems about the handshake flow -/

/-- C2: a 401 response clears the session token and both stored api
credential keys and sends the operator back to the setup page, whose initial
step is the credentials step — independent of the endpoint, of the response
detail and of the starting store and component state. -/
theorem unauthorized_response_clears_store_and_resets (endpoint : String)
    (detail : Option String) (errors : Option (List FieldError))
    (store : LocalStorage) (st : SetupState) :
    (responseErrorInterceptor endpoint (HttpFailure.withResponse 401 detail errors)
        store).store.auth_token = none ∧
    (responseErrorInterceptor endpoint (HttpFailure.withResponse 401 detail errors)
        store).store.telegram_api_id = none ∧
    (responseErrorInterceptor endpoint (HttpFailure.withResponse 401 detail errors)
        store).store.telegram_api_hash = none ∧
    (responseErrorInterceptor endpoint (HttpFailure.withResponse 401 detail errors)
        store).redirect = some "/setup" ∧
    effectiveStep st (responseErrorInterceptor endpoint
        (HttpFailure.withResponse 401 detail errors) store).redirect = SetupStep.api ∧
    setupInitialState.step = SetupStep.api :=
  ⟨rfl, rfl, rfl, rfl, rfl, rfl⟩

/-- C8 counterexample: with a stored token and a logout request the backend
answers with status 500, the session is not cleared — the await throws
before clearAuthData runs, so the token survives. -/
theorem logout_failure_keeps_token_cex :
    (logout (HttpOutcome.failure (HttpFailure.withResponse 500 none none))
        ⟨some "tok", some "12345678", some "hash", none⟩).1.auth_token
      = some "tok" ∧ some "tok" ≠ (none : Option String) := by
  decide

/-- C8 amended: when the logout request resolves (a 2xx response), the whole
store is cleared regardless of the body of that response and of the starting
store. -/
theorem logout_success_clears_store (d : AuthResponseData) (store : LocalStorage) :
    (logout (HttpOutcome.success d) store).1 = emptyStore :=
  rfl

/-- C1 counterexample: the credential pair abc and xyz fails
validateApiCredentials, yet the credentials submission is not rejected: the
handler persists both values, advances to the phone step and emits a
success toast, with no validation-error result. -/
theorem credentialsSubmit_ignores_validation_cex :
    validateApiCredentials "abc" "xyz" = false ∧
    (handleApiSubmit ⟨SetupStep.api, ⟨"abc", "xyz", "", "", ""⟩, ""⟩
        emptyStore).state.step = SetupStep.phone ∧
    (handleApiSubmit ⟨SetupStep.api, ⟨"abc", "xyz", "", "", ""⟩, ""⟩
        emptyStore).store.telegram_api_id = some "abc" ∧
    (handleApiSubmit ⟨SetupStep.api, ⟨"abc", "xyz", "", "", ""⟩, ""⟩
        emptyStore).store.telegram_api_hash = some "xyz" ∧
    (handleApiSubmit ⟨SetupStep.api, ⟨"abc", "xyz", "", "", ""⟩, ""⟩
        emptyStore).toasts = [⟨ToastKind.success, "API credentials saved"⟩] := by
  exact ⟨by decide, rfl, rfl, rfl, rfl⟩

/-- C1 amended: no submit handler consults the ValidationGate.  Even when
the credentials fail validateApiCredentials, handleApiSubmit persists them,
advances to the phone step and reports success; and even when the phone
number fails validatePhoneNumber, the phone submission still issues its
network request. -/
theorem submit_handlers_bypass_validation (st : SetupState) (store : LocalStorage) :
    (validateApiCredentials st.formData.apiId st.formData.apiHash = false →
      (handleApiSubmit st store).state.step = SetupStep.phone ∧
      (handleApiSubmit st store).store.telegram_api_id = some st.formData.apiId ∧
      (handleApiSubmit st store).store.telegram_api_hash = some st.formData.apiHash ∧
      (handleApiSubmit st store).toasts = [⟨ToastKind.success, "API credentials saved"⟩]) ∧
    (validatePhoneNumber st.formData.phoneNumber = false →
      phoneSubmitRequest st = ⟨"+" ++ st.formData.phoneNumber⟩) :=
  ⟨fun _ => ⟨rfl, rfl, rfl, rfl⟩, fun _ => rfl⟩

/-- C1 amended witness: the amended theorem applied at a failing credential
pair and a failing phone number. -/
theorem submit_handlers_bypass_validation_witness :
    (handleApiSubmit ⟨SetupStep.api, ⟨"12ab", "zz", "abc", "", ""⟩, ""⟩
        emptyStore).state.step = SetupStep.phone ∧
    phoneSubmitRequest ⟨SetupStep.api, ⟨"12ab", "zz", "abc", "", ""⟩, ""⟩
        = ⟨"+" ++ "abc"⟩ := by
  have h := submit_handlers_bypass_validation
    ⟨SetupStep.api, ⟨"12ab", "zz", "abc", "", ""⟩, ""⟩ emptyStore
  exact ⟨(h.1 (by decide)).1, h.2 (by decide)⟩

/-- C3 counterexample: from the phone step, a resolved response with the
authenticated status and requires_2fa false leaves the machine in the phone
step; it does not skip to the Authenticated screen. -/
theorem phone_step_authenticated_stays_cex :
    (handlePhoneSubmit (HttpOutcome.success ⟨"authenticated", "", "", false, some 7⟩)
        ⟨SetupStep.phone, ⟨"12345678", "aaaaaaaaaaaaaaaaaaaaaaaaaaaaaaaa",
          "821012345678", "", ""⟩, ""⟩ emptyStore).state.step = SetupStep.phone ∧
    SetupStep.phone ≠ SetupStep.complete := by
  decide

/-- C3 amended: from the code step an authenticated status advances directly
to the Authenticated screen, but from the phone step the handler recognises
only the code_sent status and the requires_2fa flag, so an authenticated
status with requires_2fa false leaves the state unchanged. -/
theorem authenticated_skip_amended (st : SetupState) (store : LocalStorage)
    (d : AuthResponseData) :
    (d.status = "authenticated" →
      (handleCodeSubmit (HttpOutcome.success d) st store).state.step
        = SetupStep.complete) ∧
    (d.status = "authenticated" → d.requires_2fa = false →
      (handlePhoneSubmit (HttpOutcome.success d) st store).state = st) := by
  constructor
  · intro hs
    simp [handleCodeSubmit, hs]
  · intro hs h2
    have hneq : d.status ≠ "code_sent" := by
      rw [hs]
      decide
    simp [handlePhoneSubmit, hneq, h2]

/-- C3 amended witness: the amended theorem applied at a concrete
authenticated payload. -/
theorem authenticated_skip_amended_witness :
    (handleCodeSubmit (HttpOutcome.success ⟨"authenticated", "ok", "h2", false, some 9⟩)
        ⟨SetupStep.code, ⟨"", "", "", "", ""⟩, "h2"⟩ emptyStore).state.step
      = SetupStep.complete ∧
    (handlePhoneSubmit (HttpOutcome.success ⟨"authenticated", "ok", "h2", false, some 9⟩)
        ⟨SetupStep.phone, ⟨"", "", "", "", ""⟩, ""⟩ emptyStore).state
      = ⟨SetupStep.phone, ⟨"", "", "", "", ""⟩, ""⟩ := by
  refine ⟨(authenticated_skip_amended _ _ _).1 rfl, (authenticated_skip_amended _ _ _).2 rfl rfl⟩

/-- C4 counterexample: a code submission the backend rejects with 401 — a
4xx status — does not keep the machine in the code step: the interceptor
wipes the stored credentials and navigates to the setup page, whose initial
step is the credentials step. -/
theorem code_reject_401_resets_cex :
    (handleCodeSubmit (HttpOutcome.failure (HttpFailure.withResponse 401 none none))
        ⟨SetupStep.code, ⟨"12345678", "aaaaaaaaaaaaaaaaaaaaaaaaaaaaaaaa",
          "821012345678", "00000", ""⟩, "h1"⟩
        ⟨none, some "12345678", some "aaaaaaaaaaaaaaaaaaaaaaaaaaaaaaaa", none⟩).redirect
      = some "/setup" ∧
    effectiveStep
      (handleCodeSubmit (HttpOutcome.failure (HttpFailure.withResponse 401 none none))
        ⟨SetupStep.code, ⟨"12345678", "aaaaaaaaaaaaaaaaaaaaaaaaaaaaaaaa",
          "821012345678", "00000", ""⟩, "h1"⟩
        ⟨none, some "12345678", some "aaaaaaaaaaaaaaaaaaaaaaaaaaaaaaaa", none⟩).state
      (handleCodeSubmit (HttpOutcome.failure (HttpFailure.withResponse 401 none none))
        ⟨SetupStep.code, ⟨"12345678", "aaaaaaaaaaaaaaaaaaaaaaaaaaaaaaaa",
          "821012345678", "00000", ""⟩, "h1"⟩
        ⟨none, some "12345678", some "aaaaaaaaaaaaaaaaaaaaaaaaaaaaaaaa", none⟩).redirect
      = SetupStep.api ∧
    SetupStep.api ≠ SetupStep.code ∧
    (handleCodeSubmit (HttpOutcome.failure (HttpFailure.withResponse 401 none none))
        ⟨SetupStep.code, ⟨"12345678", "aaaaaaaaaaaaaaaaaaaaaaaaaaaaaaaa",
          "821012345678", "00000", ""⟩, "h1"⟩
        ⟨none, some "12345678", some "aaaaaaaaaaaaaaaaaaaaaaaaaaaaaaaa", none⟩).store.telegram_api_id
      = none := by
  decide

/-- C4 amended: for a code submission rejected with any 4xx status other
than 401, the machine stays in the code step and the store is wholly
untouched, in particular no session token is created. -/
theorem code_reject_4xx_non401_stays (st : SetupState) (store : LocalStorage)
    (status : Nat) (detail : Option String) (errors : Option (List FieldError))
    (hstep : st.step = SetupStep.code) (h4 : 400 ≤ status) (h5 : status < 500)
    (hn : status ≠ 401) :
    effectiveStep
      (handleCodeSubmit (HttpOutcome.failure (HttpFailure.withResponse status detail errors))
        st store).state
      (handleCodeSubmit (HttpOutcome.failure (HttpFailure.withResponse status detail errors))
        st store).redirect = SetupStep.code ∧
    (handleCodeSubmit (HttpOutcome.failure (HttpFailure.withResponse status detail errors))
        st store).store = store := by
  have h := interceptor_non401 "/auth/telegram/verify" status detail errors store hn
  constructor
  · show effectiveStep st (responseErrorInterceptor "/auth/telegram/verify"
      (HttpFailure.withResponse status detail errors) store).redirect = SetupStep.code
    rw [h.2]
    simpa [effectiveStep] using hstep
  · exact h.1

/-- C4 amended witness: the amended theorem applied at status 400. -/
theorem code_reject_4xx_non401_stays_witness :
    effectiveStep
      (handleCodeSubmit (HttpOutcome.failure (HttpFailure.withResponse 400 none none))
        ⟨SetupStep.code, ⟨"1", "a", "8", "0", ""⟩, "h1"⟩ emptyStore).state
      (handleCodeSubmit (HttpOutcome.failure (HttpFailure.withResponse 400 none none))
        ⟨SetupStep.code, ⟨"1", "a", "8", "0", ""⟩, "h1"⟩ emptyStore).redirect
      = SetupStep.code ∧
    (handleCodeSubmit (HttpOutcome.failure (HttpFailure.withResponse 400 none none))
        ⟨SetupStep.code, ⟨"1", "a", "8", "0", ""⟩, "h1"⟩ emptyStore).store = emptyStore :=
  code_reject_4xx_non401_stays ⟨SetupStep.code, ⟨"1", "a", "8", "0", ""⟩, "h1"⟩
    emptyStore 400 none none rfl (by decide) (by decide) (by decide)

/-- C10: verifyCode writes a token only when the payload status is
authenticated, a user_id is present and an authorization header is present;
and whenever the status is not authenticated, or user_id is absent, or the
header is absent, the store is returned unchanged with no write. -/
theorem verifyCode_persist_conditions (resp : VerifyHttpResponse)
    (store : LocalStorage) :
    ((verifyCode resp store).2 = true →
      resp.data.status = "authenticated" ∧ resp.data.user_id.isSome = true ∧
      resp.authHeader.isSome = true) ∧
    ((resp.data.status ≠ "authenticated" ∨ resp.data.user_id = none ∨
        resp.authHeader = none) →
      verifyCode resp store = (store, false)) := by
  obtain ⟨⟨status, message, pch, r2fa, uid⟩, hdr⟩ := resp
  dsimp only
  constructor
  · intro h
    unfold verifyCode at h
    dsimp only at h
    split_ifs at h with hc
    obtain ⟨hs, hn⟩ := hc
    cases hdr with
    | none => simp at h
    | some token =>
        dsimp only at h
        split_ifs at h with ht
        refine ⟨hs, ?_, rfl⟩
        cases uid with
        | none => simp [jsTruthyId] at hn
        | some n => rfl
  · intro h
    unfold verifyCode
    dsimp only
    rcases h with h | h | h
    · rw [if_neg]
      intro hc
      exact h hc.1
    · rw [if_neg]
      intro hc
      rw [h] at hc
      exact absurd hc.2 (by simp [jsTruthyId])
    · subst h
      split_ifs with hc
      · rfl
      · rfl

/-- C10 witness: the theorem applied at a payload whose status is not
authenticated; the store is untouched and no write happens. -/
theorem verifyCode_persist_conditions_witness :
    verifyCode ⟨⟨"2fa_required", "", "", true, none⟩, none⟩ emptyStore
      = (emptyStore, false) :=
  (verifyCode_persist_conditions ⟨⟨"2fa_required", "", "", true, none⟩, none⟩
      emptyStore).2 (Or.inl (by decide))

end SenseInfo
